import Mathlib

/-!
Shallow embedding of the placement-validation and rigid-body bookkeeping
layer of the skyscraper-stacker game: the `PhysicsWorld` class from
`src/physics.js` (the extended version that also defines
`isValidPlacement`, `hasSupport` and `getTopYAt`), the block catalogue
from `src/blocks.js`, and the placement resolution
(`GameControls.getPlacementPosition` / `snapPositionToGrid`) from
`src/controls.js`.

JavaScript numbers are modelled as exact rationals.  JavaScript object
reference identity is modelled by a numeric `id` field on bodies: the
`indexOf` test in `removeBody` and the membership test of
`CANNON.World.addBody` compare ids.
-/

/-- A 3-component vector (models `CANNON.Vec3` / `THREE.Vector3`). -/
structure Vec3 where
  x : ℚ
  y : ℚ
  z : ℚ
deriving DecidableEq

/-- A physics material, reduced to the two contact parameters the game sets.
For the world's shared default material the effective values come from the
`defaultContactMaterial` built in the `PhysicsWorld` constructor
(friction 0.5, restitution 0.1). -/
structure Material where
  friction : ℚ
  restitution : ℚ
deriving DecidableEq

/-- A rigid body as used by the game.  `id` models JavaScript reference
identity, `blockType` models `body.userData.blockType` (`none` when
`userData` is absent or carries no block type, as for the ground), and
`hasBoxShape` models the `shape instanceof CANNON.Box` test. -/
structure Body where
  id : ℕ
  position : Vec3
  halfExtents : Vec3
  mass : ℚ
  material : Material
  blockType : Option String
  hasBoxShape : Bool
deriving DecidableEq

/-- The guard `body.userData && body.userData.blockType` combined with the
`shape instanceof CANNON.Box` test that every geometric query applies
before it looks at a registered body. -/
def Body.isBlock (b : Body) : Bool :=
  b.blockType.isSome && b.hasBoxShape

/-- Top face height of a box body: center y plus half-extent y. -/
def Body.topY (b : Body) : ℚ :=
  b.position.y + b.halfExtents.y

/-- State of `PhysicsWorld`: the dynamic-body registry `this.bodies`, the
bodies registered with the underlying `CANNON.World` (`worldBodies`), the
ground body and the shared default material. -/
structure PhysicsWorld where
  bodies : List Body
  worldBodies : List Body
  groundBody : Body
  defaultMaterial : Material
deriving DecidableEq

/-- The shared default material created in the `PhysicsWorld` constructor;
its effective contact parameters are set by the default contact material
(friction 0.5, restitution 0.1). -/
def initialDefaultMaterial : Material :=
  { friction := 0.5, restitution := 0.1 }

/-- The static ground body built by `createGround`: a 400x2x400 box at
y = -1, mass 0, default material, no `userData`. -/
def initialGroundBody : Body :=
  { id := 0
    position := ⟨0, -1, 0⟩
    halfExtents := ⟨200, 1, 200⟩
    mass := 0
    material := initialDefaultMaterial
    blockType := none
    hasBoxShape := true }

/-- A freshly constructed `PhysicsWorld`: empty registry, ground created by
`createGround` and added to the CANNON world only. -/
def PhysicsWorld.init : PhysicsWorld :=
  { bodies := []
    worldBodies := [initialGroundBody]
    groundBody := initialGroundBody
    defaultMaterial := initialDefaultMaterial }

/-- `addBody(body)`: assigns the shared default material to the body,
registers it with the CANNON world (which ignores a body it already
contains) and pushes it onto `this.bodies` unconditionally.  Returns the
new state together with the (mutated) body, which the source returns. -/
def PhysicsWorld.addBody (w : PhysicsWorld) (b : Body) : PhysicsWorld × Body :=
  let b' : Body := { b with material := w.defaultMaterial }
  ({ w with
      bodies := w.bodies ++ [b']
      worldBodies :=
        if w.worldBodies.any (fun x => x.id == b'.id) then w.worldBodies
        else w.worldBodies ++ [b'] },
   b')

/-- `removeBody(body)`: if `this.bodies.indexOf(body)` finds the body, it is
spliced out of the registry and removed from the CANNON world; otherwise
nothing happens. -/
def PhysicsWorld.removeBody (w : PhysicsWorld) (b : Body) : PhysicsWorld :=
  if w.bodies.any (fun x => x.id == b.id) then
    { w with
        bodies := w.bodies.eraseP (fun x => x.id == b.id)
        worldBodies := w.worldBodies.eraseP (fun x => x.id == b.id) }
  else w

/-- `reset()`: iterates over a copy of `this.bodies` and calls `removeBody`
on each element. -/
def PhysicsWorld.reset (w : PhysicsWorld) : PhysicsWorld :=
  w.bodies.foldl PhysicsWorld.removeBody w

/-- `checkCollision(position, halfExtents)`: strict AABB overlap test of the
candidate box against every registered block body. -/
def PhysicsWorld.checkCollision (w : PhysicsWorld) (position halfExtents : Vec3) : Bool :=
  w.bodies.any fun b =>
    b.isBlock &&
    decide (|position.x - b.position.x| < halfExtents.x + b.halfExtents.x) &&
    decide (|position.y - b.position.y| < halfExtents.y + b.halfExtents.y) &&
    decide (|position.z - b.position.z| < halfExtents.z + b.halfExtents.z)

/-- `isValidPlacement(position, halfExtents, tolerance = 0.5)`: AABB overlap
test with the tolerance subtracted from each combined half-extent sum;
returns `false` (invalid) when any registered block overlaps. -/
def PhysicsWorld.isValidPlacement (w : PhysicsWorld) (position halfExtents : Vec3)
    (tolerance : ℚ) : Bool :=
  !(w.bodies.any fun b =>
    b.isBlock &&
    decide (|position.x - b.position.x| < halfExtents.x + b.halfExtents.x - tolerance) &&
    decide (|position.y - b.position.y| < halfExtents.y + b.halfExtents.y - tolerance) &&
    decide (|position.z - b.position.z| < halfExtents.z + b.halfExtents.z - tolerance))

/-- `hasSupport(position, halfExtents)`: ground support when the bottom face
is at y <= 0.5, otherwise a registered block whose top face is strictly
within 1.0 of the bottom face and whose clamped horizontal overlap reaches
0.4 of the candidate's half-extent on both X and Z. -/
def PhysicsWorld.hasSupport (w : PhysicsWorld) (position halfExtents : Vec3) : Bool :=
  let bottomY := position.y - halfExtents.y
  if bottomY ≤ 0.5 then true
  else
    w.bodies.any fun b =>
      b.isBlock &&
      decide (|b.topY - bottomY| < 1) &&
      (let overlapX := max 0
          (min (position.x + halfExtents.x) (b.position.x + b.halfExtents.x) -
           max (position.x - halfExtents.x) (b.position.x - b.halfExtents.x))
       let overlapZ := max 0
          (min (position.z + halfExtents.z) (b.position.z + b.halfExtents.z) -
           max (position.z - halfExtents.z) (b.position.z - b.halfExtents.z))
       decide (overlapX ≥ halfExtents.x * 0.4) && decide (overlapZ ≥ halfExtents.z * 0.4))

/-- Loop body of `getMaxHeight`: fold the running maximum over the top face
of each registered block body. -/
def topAccum (acc : ℚ) (b : Body) : ℚ :=
  if b.isBlock then max acc b.topY else acc

/-- `getMaxHeight()`: greatest top-face y over all registered block bodies,
starting from 0 and finally clamped below by 0. -/
def PhysicsWorld.getMaxHeight (w : PhysicsWorld) : ℚ :=
  max 0 (w.bodies.foldl topAccum 0)

/-- Catalogue entry of `BLOCK_TYPES` in `src/blocks.js` (rendering colour
omitted). -/
structure BlockConfig where
  size : Vec3
  mass : ℚ
  friction : ℚ
deriving DecidableEq

/-- The `BLOCK_TYPES` catalogue: foundation, office, spire. -/
def BLOCK_TYPES (blockType : String) : Option BlockConfig :=
  if blockType = "foundation" then some ⟨⟨20, 15, 20⟩, 8, 0.7⟩
  else if blockType = "office" then some ⟨⟨10, 30, 10⟩, 5, 0.6⟩
  else if blockType = "spire" then some ⟨⟨5, 50, 5⟩, 3, 0.5⟩
  else none

/-- `createBlockBody(blockType, position)`: builds a box body with half the
catalogue size as half-extents, the catalogue mass, and a fresh material
with the catalogue friction and restitution 0.1.  Returns `none` for an
unknown type.  `userData.blockType` is set later by `createBlock`, so
`blockType` is still `none` here.  `bodyId` models the fresh object
identity. -/
def createBlockBody (blockType : String) (position : Vec3) (bodyId : ℕ) : Option Body :=
  match BLOCK_TYPES blockType with
  | none => none
  | some config =>
      some
        { id := bodyId
          position := position
          halfExtents := ⟨config.size.x / 2, config.size.y / 2, config.size.z / 2⟩
          mass := config.mass
          material := { friction := config.friction, restitution := 0.1 }
          blockType := none
          hasBoxShape := true }

/-- `createBlock(blockType, position)`: pairs the body with a mesh and sets
`body.userData = \x7b mesh, blockType \x7d`; only the body side is modelled. -/
def createBlock (blockType : String) (position : Vec3) (bodyId : ℕ) : Option Body :=
  (createBlockBody blockType position bodyId).map fun b =>
    { b with blockType := some blockType }

/-- Grid spacing `this.gridSize` from `GameControls`. -/
def gridSize : ℚ := 5

/-- JavaScript `Math.round`: round half toward positive infinity. -/
def jsRound (q : ℚ) : ℤ :=
  ⌊q + 1 / 2⌋

/-- One horizontal coordinate of `snapPositionToGrid`:
`Math.round(x / gridSize) * gridSize`. -/
def snapCoord (q : ℚ) : ℚ :=
  (jsRound (q / gridSize) : ℚ) * gridSize

/-- `snapPositionToGrid(position)`: X and Z are rounded to the grid when
`this.snapToGrid` is set (the constructor sets it and nothing clears it);
Y always passes through. -/
def snapPositionToGrid (snapToGrid : Bool) (position : Vec3) : Vec3 :=
  if snapToGrid then ⟨snapCoord position.x, position.y, snapCoord position.z⟩
  else position

/-- Clamp of the ground intersection to the buildable region:
`Math.max(-80, Math.min(80, c))`. -/
def clamp80 (q : ℚ) : ℚ :=
  max (-80) (min 80 q)

/-- A world-space pick ray (origin plus direction). -/
structure Ray where
  origin : Vec3
  direction : Vec3
deriving DecidableEq

/-- `THREE.Ray.intersectPlane` against the ground plane y = 0 (normal
(0,1,0), constant 0): `none` when the ray is parallel to the plane and not
inside it, or when the intersection parameter is negative. -/
def intersectGroundPlane (ray : Ray) : Option Vec3 :=
  if ray.direction.y = 0 then
    if ray.origin.y = 0 then some ray.origin else none
  else
    let t := -ray.origin.y / ray.direction.y
    if 0 ≤ t then
      some ⟨ray.origin.x + t * ray.direction.x,
            ray.origin.y + t * ray.direction.y,
            ray.origin.z + t * ray.direction.z⟩
    else none

/-- One element of the list returned by `raycaster.intersectObjects` over
the block meshes: distance along the ray, hit point, presence of face data
(`intersect.face && intersect.face.normal`), the face normal transformed to
world space, and the identity of the struck mesh object. -/
structure Intersection where
  distance : ℚ
  point : Vec3
  hasFace : Bool
  worldNormal : Vec3
  objId : ℕ
deriving DecidableEq

/-- The filter applied to each intersection inside `getPlacementPosition`:
face data present and world normal pointing mostly upward. -/
def qualifiesTopFace (i : Intersection) : Bool :=
  i.hasFace && decide (i.worldNormal.y > 0.5)

/-- The structured result of `getPlacementPosition`. -/
structure PlacementInfo where
  position : Vec3
  surfaceY : ℚ
  onBlock : Bool
  targetBlock : Option ℕ
deriving DecidableEq

/-- `GameControls.getPlacementPosition()`: walk the distance-ordered
intersection list for the first upward-facing hit, snap its X/Z to the
grid while keeping the exact intersection Y; otherwise fall back to the
ground plane, clamping X/Z to [-80, 80] before snapping and resting at
y = 0; report `none` when the ray misses the ground plane too. -/
def getPlacementPosition (snapToGrid : Bool) (intersects : List Intersection)
    (ray : Ray) : Option PlacementInfo :=
  match intersects.find? qualifiesTopFace with
  | some i =>
      let snapped := snapPositionToGrid snapToGrid i.point
      some { position := ⟨snapped.x, i.point.y, snapped.z⟩
             surfaceY := i.point.y
             onBlock := true
             targetBlock := some i.objId }
  | none =>
      match intersectGroundPlane ray with
      | some p =>
          let snapped := snapPositionToGrid snapToGrid ⟨clamp80 p.x, p.y, clamp80 p.z⟩
          some { position := ⟨snapped.x, 0, snapped.z⟩
                 surfaceY := 0
                 onBlock := false
                 targetBlock := none }
      | none => none

/-- Test fixture: a 10x10x10 block body tagged as a block. -/
def cubeBlock (position : Vec3) (bodyId : ℕ) : Body :=
  { id := bodyId
    position := position
    halfExtents := ⟨5, 5, 5⟩
    mass := 5
    material := initialDefaultMaterial
    blockType := some "cube"
    hasBoxShape := true }

/-- Test fixture: a fresh world holding one 10x10x10 block. -/
def worldWithCubeAt (position : Vec3) : PhysicsWorld :=
  (PhysicsWorld.init.addBody (cubeBlock position 1)).1

/-- Test fixture: the body produced by `createBlockBody` for an office
tower at the origin. -/
def officeBody3 : Body :=
  { id := 3
    position := ⟨0, 0, 0⟩
    halfExtents := ⟨5, 15, 5⟩
    mass := 5
    material := { friction := 0.6, restitution := 0.1 }
    blockType := none
    hasBoxShape := true }

/-- Test fixture: an upward-facing ray intersection with a block mesh. -/
def topIntersection : Intersection :=
  { distance := 10
    point := ⟨3, 15, 2⟩
    hasFace := true
    worldNormal := ⟨0, 1, 0⟩
    objId := 42 }

/-! ## Helper lemmas -/

/-- Registry of the one-cube fixture world. -/
theorem worldWithCubeAt_bodies (p : Vec3) : (worldWithCubeAt p).bodies = [cubeBlock p 1] := rfl

/-- Ground body of the one-cube fixture world. -/
theorem worldWithCubeAt_groundBody (p : Vec3) :
    (worldWithCubeAt p).groundBody = initialGroundBody := rfl

/-- CANNON-world registry of the one-cube fixture world. -/
theorem worldWithCubeAt_worldBodies (p : Vec3) :
    (worldWithCubeAt p).worldBodies = [initialGroundBody, cubeBlock p 1] := rfl

/-- The fixture cube passes the block filter. -/
theorem cubeBlock_isBlock (p : Vec3) (n : ℕ) : (cubeBlock p n).isBlock = true := rfl

/-- With tolerance 0 the overlap test of `isValidPlacement` coincides with
`checkCollision`. -/
theorem isValidPlacement_zero_eq (w : PhysicsWorld) (position halfExtents : Vec3) :
    w.isValidPlacement position halfExtents 0 = !(w.checkCollision position halfExtents) := by
  unfold PhysicsWorld.isValidPlacement PhysicsWorld.checkCollision
  simp only [sub_zero]

/-! ## C1 -/

/-- C1, counterexample: with one 10x10x10 block at the origin, querying its
own cell makes `checkCollision` true while `isValidPlacement` with
tolerance 0 returns false, refuting the claim that `isValidPlacement`
would return true there. -/
theorem checkCollision_true_isValidPlacement_false :
    (worldWithCubeAt ⟨0, 0, 0⟩).checkCollision ⟨0, 0, 0⟩ ⟨5, 5, 5⟩ = true ∧
    (worldWithCubeAt ⟨0, 0, 0⟩).isValidPlacement ⟨0, 0, 0⟩ ⟨5, 5, 5⟩ 0 = false := by
  constructor <;>
    norm_num [PhysicsWorld.checkCollision, PhysicsWorld.isValidPlacement,
      worldWithCubeAt_bodies, cubeBlock, Body.isBlock]

/-- C1, amended: whenever `checkCollision` reports a collision,
`isValidPlacement` with tolerance 0 reports the placement invalid
(returns false); and for a separation within a positive tolerance there is
a configuration where `checkCollision` is true yet `isValidPlacement`
with that tolerance is still true. -/
theorem isValidPlacement_vs_checkCollision :
    (∀ (w : PhysicsWorld) (position halfExtents : Vec3),
        w.checkCollision position halfExtents = true →
        w.isValidPlacement position halfExtents 0 = false) ∧
    (∃ (w : PhysicsWorld) (position halfExtents : Vec3) (t : ℚ),
        0 < t ∧ w.checkCollision position halfExtents = true ∧
        w.isValidPlacement position halfExtents t = true) := by
  constructor
  · intro w position halfExtents h
    rw [isValidPlacement_zero_eq, h]
    rfl
  · refine ⟨worldWithCubeAt ⟨0, 0, 0⟩, ⟨49/5, 0, 0⟩, ⟨5, 5, 5⟩, 1/2, by norm_num, ?_, ?_⟩ <;>
      norm_num [PhysicsWorld.checkCollision, PhysicsWorld.isValidPlacement,
        worldWithCubeAt_bodies, cubeBlock, Body.isBlock, abs_lt, le_abs]

/-- C1, witness: the implication applied at the concrete overlapping
configuration. -/
theorem isValidPlacement_vs_checkCollision_witness :
    (worldWithCubeAt ⟨0, 0, 0⟩).isValidPlacement ⟨0, 0, 0⟩ ⟨5, 5, 5⟩ 0 = false :=
  isValidPlacement_vs_checkCollision.1 (worldWithCubeAt ⟨0, 0, 0⟩) ⟨0, 0, 0⟩ ⟨5, 5, 5⟩
    (by norm_num [PhysicsWorld.checkCollision, worldWithCubeAt_bodies, cubeBlock,
      Body.isBlock])

/-! ## C6 -/

/-- C6: `checkCollision` is true exactly when some registered block body
overlaps the candidate box strictly on all three axes; it is false on an
empty registry, true for the slot of a 10x10x10 box at (20,0,0) and false
at (40,0,0). -/
theorem checkCollision_characterization :
    (∀ (w : PhysicsWorld) (position halfExtents : Vec3),
        (∀ b ∈ w.bodies, b.isBlock = true) →
        (w.checkCollision position halfExtents = true ↔
          ∃ b ∈ w.bodies,
            |position.x - b.position.x| < halfExtents.x + b.halfExtents.x ∧
            |position.y - b.position.y| < halfExtents.y + b.halfExtents.y ∧
            |position.z - b.position.z| < halfExtents.z + b.halfExtents.z)) ∧
    (∀ (w : PhysicsWorld) (position halfExtents : Vec3),
        w.bodies = [] → w.checkCollision position halfExtents = false) ∧
    (worldWithCubeAt ⟨20, 0, 0⟩).checkCollision ⟨20, 0, 0⟩ ⟨5, 5, 5⟩ = true ∧
    (worldWithCubeAt ⟨20, 0, 0⟩).checkCollision ⟨40, 0, 0⟩ ⟨5, 5, 5⟩ = false := by
  refine ⟨?_, ?_,
    by norm_num [PhysicsWorld.checkCollision, worldWithCubeAt_bodies, cubeBlock, Body.isBlock],
    by norm_num [PhysicsWorld.checkCollision, worldWithCubeAt_bodies, cubeBlock, Body.isBlock]⟩
  · intro w position halfExtents hall
    unfold PhysicsWorld.checkCollision
    simp only [List.any_eq_true, Bool.and_eq_true, decide_eq_true_eq]
    constructor
    · rintro ⟨b, hb, ⟨⟨_, hx⟩, hy⟩, hz⟩
      exact ⟨b, hb, hx, hy, hz⟩
    · rintro ⟨b, hb, hx, hy, hz⟩
      exact ⟨b, hb, ⟨⟨hall b hb, hx⟩, hy⟩, hz⟩
  · intro w position halfExtents h
    unfold PhysicsWorld.checkCollision
    rw [h]
    rfl

/-- C6, witness: the characterization applied to the single-block world of
the worked example. -/
theorem checkCollision_characterization_witness :
    (worldWithCubeAt ⟨20, 0, 0⟩).checkCollision ⟨20, 0, 0⟩ ⟨5, 5, 5⟩ = true ↔
      ∃ b ∈ (worldWithCubeAt ⟨20, 0, 0⟩).bodies,
        |(20 : ℚ) - b.position.x| < 5 + b.halfExtents.x ∧
        |(0 : ℚ) - b.position.y| < 5 + b.halfExtents.y ∧
        |(0 : ℚ) - b.position.z| < 5 + b.halfExtents.z :=
  checkCollision_characterization.1 (worldWithCubeAt ⟨20, 0, 0⟩) ⟨20, 0, 0⟩ ⟨5, 5, 5⟩
    (by intro b hb; simp [worldWithCubeAt_bodies] at hb; subst hb; rfl)

/-! ## C2 -/

/-- C2: `hasSupport` is true iff the bottom face is at y <= 0.5 (ground
support) or some registered block's top face is strictly within 1.0 of the
bottom face with clamped horizontal overlap of at least 0.4 of the
candidate half-extent on both X and Z; it is true whenever the bottom face
is at y <= 0.5 whatever the registry holds, and false for a block with
bottom face at y = 95 when no top face is within 1.0 of 95. -/
theorem hasSupport_characterization :
    (∀ (w : PhysicsWorld) (position halfExtents : Vec3),
        (∀ b ∈ w.bodies, b.isBlock = true) →
        (w.hasSupport position halfExtents = true ↔
          (position.y - halfExtents.y ≤ 0.5 ∨
           ∃ b ∈ w.bodies,
             |b.topY - (position.y - halfExtents.y)| < 1 ∧
             max 0 (min (position.x + halfExtents.x) (b.position.x + b.halfExtents.x) -
                    max (position.x - halfExtents.x) (b.position.x - b.halfExtents.x)) ≥
               halfExtents.x * 0.4 ∧
             max 0 (min (position.z + halfExtents.z) (b.position.z + b.halfExtents.z) -
                    max (position.z - halfExtents.z) (b.position.z - b.halfExtents.z)) ≥
               halfExtents.z * 0.4))) ∧
    (∀ (w : PhysicsWorld) (position halfExtents : Vec3),
        position.y - halfExtents.y ≤ 0.5 → w.hasSupport position halfExtents = true) ∧
    (∀ (w : PhysicsWorld) (x z : ℚ),
        (∀ b ∈ w.bodies, ¬ |b.topY - 95| < 1) →
        w.hasSupport ⟨x, 100, z⟩ ⟨5, 5, 5⟩ = false) := by
  refine ⟨?_, ?_, ?_⟩
  · intro w position halfExtents hall
    by_cases hb : position.y - halfExtents.y ≤ 0.5
    · simp only [PhysicsWorld.hasSupport]
      rw [if_pos hb]
      exact iff_of_true rfl (Or.inl hb)
    · simp only [PhysicsWorld.hasSupport]
      rw [if_neg hb, List.any_eq_true]
      constructor
      · rintro ⟨b, hbmem, hpred⟩
        simp only [Bool.and_eq_true, decide_eq_true_eq] at hpred
        obtain ⟨⟨_, h1⟩, h2, h3⟩ := hpred
        exact Or.inr ⟨b, hbmem, h1, h2, h3⟩
      · rintro (h | ⟨b, hbmem, h1, h2, h3⟩)
        · exact absurd h hb
        · refine ⟨b, hbmem, ?_⟩
          simp only [Bool.and_eq_true, decide_eq_true_eq]
          exact ⟨⟨hall b hbmem, h1⟩, h2, h3⟩
  · intro w position halfExtents h
    simp only [PhysicsWorld.hasSupport]
    rw [if_pos h]
  · intro w x z hno
    simp only [PhysicsWorld.hasSupport]
    rw [if_neg (by norm_num), List.any_eq_false]
    intro b hbmem
    simp only [Bool.and_eq_true, decide_eq_true_eq, not_and]
    intro hA
    exfalso
    apply hno b hbmem
    have h1 := hA.2
    have h95 : (100 : ℚ) - 5 = 95 := by norm_num
    rw [h95] at h1
    exact h1

/-- C2, witness: ground support applied at a concrete resting block. -/
theorem hasSupport_characterization_witness :
    PhysicsWorld.init.hasSupport ⟨0, 5, 0⟩ ⟨5, 5, 5⟩ = true :=
  hasSupport_characterization.2.1 PhysicsWorld.init ⟨0, 5, 0⟩ ⟨5, 5, 5⟩ (by norm_num)

/-! ## C7 helper lemmas -/

/-- The running maximum of `getMaxHeight` never decreases. -/
theorem le_foldl_topAccum (l : List Body) (a : ℚ) : a ≤ l.foldl topAccum a := by
  induction l generalizing a with
  | nil => exact le_refl a
  | cons hd tl ih =>
      rw [List.foldl_cons]
      refine le_trans ?_ (ih (topAccum a hd))
      unfold topAccum
      split
      · exact le_max_left _ _
      · exact le_refl a

/-- Every block body in the list bounds the `getMaxHeight` fold from
below by its top face. -/
theorem topY_le_foldl_topAccum (l : List Body) (b : Body) (hblk : b.isBlock = true) :
    ∀ a : ℚ, b ∈ l → b.topY ≤ l.foldl topAccum a := by
  induction l with
  | nil => intro a h; cases h
  | cons hd tl ih =>
      intro a h
      rw [List.foldl_cons]
      rcases List.mem_cons.mp h with h' | hmem
      · subst h'
        refine le_trans ?_ (le_foldl_topAccum tl (topAccum a b))
        unfold topAccum
        rw [if_pos hblk]
        exact le_max_right _ _
      · exact ih (topAccum a hd) hmem

/-- The `getMaxHeight` fold either keeps its seed or returns the top face
of some listed body. -/
theorem foldl_topAccum_attained (l : List Body) :
    ∀ a : ℚ, l.foldl topAccum a = a ∨ ∃ b ∈ l, l.foldl topAccum a = b.topY := by
  induction l with
  | nil => intro a; exact Or.inl rfl
  | cons hd tl ih =>
      intro a
      rw [List.foldl_cons]
      rcases ih (topAccum a hd) with h | ⟨b, hbmem, hEq⟩
      · rw [h]
        unfold topAccum
        split
        · rcases max_choice a hd.topY with h2 | h2
          · exact Or.inl h2
          · exact Or.inr ⟨hd, List.mem_cons_self _ _, h2⟩
        · exact Or.inl rfl
      · exact Or.inr ⟨b, List.mem_cons_of_mem _ hbmem, hEq⟩

/-! ## C7 -/

/-- C7: `getMaxHeight` is nonnegative, bounds every registered block's top
face from above, and is either 0 or attained by some registered block; it
is 0 on an empty registry and 45 right after adding one block with
half-extent y = 5 centered at y = 40. -/
theorem getMaxHeight_characterization :
    (∀ w : PhysicsWorld,
        (∀ b ∈ w.bodies, b.isBlock = true) →
        (0 ≤ w.getMaxHeight ∧
         (∀ b ∈ w.bodies, b.topY ≤ w.getMaxHeight) ∧
         (w.getMaxHeight = 0 ∨ ∃ b ∈ w.bodies, w.getMaxHeight = b.topY))) ∧
    (∀ w : PhysicsWorld, w.bodies = [] → w.getMaxHeight = 0) ∧
    (worldWithCubeAt ⟨0, 40, 0⟩).getMaxHeight = 45 := by
  refine ⟨?_, ?_, ?_⟩
  · intro w hall
    refine ⟨le_max_left _ _, ?_, ?_⟩
    · intro b hbmem
      exact le_trans (topY_le_foldl_topAccum w.bodies b (hall b hbmem) 0 hbmem)
        (le_max_right _ _)
    · rcases max_choice 0 (w.bodies.foldl topAccum 0) with h | h
      · exact Or.inl h
      · rcases foldl_topAccum_attained w.bodies 0 with h0 | ⟨b, hbmem, hEq⟩
        · refine Or.inl ?_
          show max 0 (w.bodies.foldl topAccum 0) = 0
          rw [h0]
          simp
        · exact Or.inr ⟨b, hbmem, h.trans hEq⟩
  · intro w h
    unfold PhysicsWorld.getMaxHeight
    rw [h]
    simp
  · norm_num [PhysicsWorld.getMaxHeight, worldWithCubeAt_bodies, topAccum, cubeBlock,
      Body.topY, Body.isBlock, max_def]

/-- C7, witness: nonnegativity applied to the concrete one-block world. -/
theorem getMaxHeight_characterization_witness :
    (0 : ℚ) ≤ (worldWithCubeAt ⟨0, 40, 0⟩).getMaxHeight :=
  (getMaxHeight_characterization.1 (worldWithCubeAt ⟨0, 40, 0⟩)
    (by intro b hb; simp [worldWithCubeAt_bodies] at hb; subst hb; rfl)).1

/-! ## C5 helper lemmas -/

/-- The registry after `removeBody` is always the id-erasure of the old
registry (erasing nothing when the body is unknown). -/
theorem removeBody_bodies (w : PhysicsWorld) (b : Body) :
    (w.removeBody b).bodies = w.bodies.eraseP (fun x => x.id == b.id) := by
  unfold PhysicsWorld.removeBody
  split
  · rfl
  · next h =>
      rw [List.eraseP_of_forall_not]
      intro x hx hpx
      exact h (List.any_eq_true.mpr ⟨x, hx, hpx⟩)

/-- `removeBody` never touches the ground-body field. -/
theorem removeBody_groundBody (w : PhysicsWorld) (b : Body) :
    (w.removeBody b).groundBody = w.groundBody := by
  unfold PhysicsWorld.removeBody
  split <;> rfl

/-- A CANNON-world member with a different id survives `removeBody`. -/
theorem removeBody_worldBodies_mem (w : PhysicsWorld) (b g : Body)
    (hne : ¬ g.id = b.id) (hg : g ∈ w.worldBodies) :
    g ∈ (w.removeBody b).worldBodies := by
  unfold PhysicsWorld.removeBody
  split
  · exact (List.mem_eraseP_of_neg (by simp [hne])).mpr hg
  · exact hg

/-- Folding `removeBody` over the current registry empties the registry. -/
theorem foldl_removeBody_bodies (l : List Body) :
    ∀ w : PhysicsWorld, w.bodies = l → (l.foldl PhysicsWorld.removeBody w).bodies = [] := by
  induction l with
  | nil => intro w h; simpa using h
  | cons hd tl ih =>
      intro w h
      rw [List.foldl_cons]
      apply ih
      rw [removeBody_bodies, h]
      exact List.eraseP_cons_of_pos (by simp)

/-- Folding `removeBody` preserves the ground-body field. -/
theorem foldl_removeBody_groundBody (l : List Body) :
    ∀ w : PhysicsWorld, (l.foldl PhysicsWorld.removeBody w).groundBody = w.groundBody := by
  induction l with
  | nil => intro w; rfl
  | cons hd tl ih =>
      intro w
      rw [List.foldl_cons, ih, removeBody_groundBody]

/-- A CANNON-world member whose id differs from every removed body's id
survives the `removeBody` fold. -/
theorem foldl_removeBody_ground_mem (l : List Body) :
    ∀ (w : PhysicsWorld) (g : Body), (∀ b ∈ l, ¬ g.id = b.id) → g ∈ w.worldBodies →
      g ∈ (l.foldl PhysicsWorld.removeBody w).worldBodies := by
  induction l with
  | nil => intro w g _ hg; exact hg
  | cons hd tl ih =>
      intro w g hall hg
      rw [List.foldl_cons]
      exact ih _ g (fun b hb => hall b (List.mem_cons_of_mem _ hb))
        (removeBody_worldBodies_mem w hd g (hall hd (List.mem_cons_self _ _)) hg)

/-! ## C5 -/

/-- C5: `reset` empties the dynamic-body registry, keeps the ground body
(both the field and, when the ground id is distinct from every dynamic
body id, its CANNON-world membership), is a no-op on an already-empty
world, and afterwards `getMaxHeight` is 0 and `checkCollision` is false
for every query. -/
theorem reset_clears_world :
    ∀ w : PhysicsWorld,
      (w.reset).bodies = [] ∧
      (w.reset).groundBody = w.groundBody ∧
      ((∀ b ∈ w.bodies, ¬ w.groundBody.id = b.id) →
         w.groundBody ∈ w.worldBodies → w.groundBody ∈ (w.reset).worldBodies) ∧
      (w.bodies = [] → w.reset = w) ∧
      (w.reset).getMaxHeight = 0 ∧
      (∀ position halfExtents : Vec3,
         (w.reset).checkCollision position halfExtents = false) := by
  intro w
  have hnil : (w.reset).bodies = [] := foldl_removeBody_bodies w.bodies w rfl
  refine ⟨hnil, foldl_removeBody_groundBody w.bodies w, ?_, ?_, ?_, ?_⟩
  · intro hids hg
    exact foldl_removeBody_ground_mem w.bodies w w.groundBody hids hg
  · intro h
    unfold PhysicsWorld.reset
    rw [h]
    rfl
  · unfold PhysicsWorld.getMaxHeight
    rw [hnil]
    simp
  · intro position halfExtents
    unfold PhysicsWorld.checkCollision
    rw [hnil]
    rfl

/-- C5, witness: the ground body survives resetting the one-cube world. -/
theorem reset_clears_world_witness :
    (worldWithCubeAt ⟨0, 0, 0⟩).groundBody ∈
      ((worldWithCubeAt ⟨0, 0, 0⟩).reset).worldBodies :=
  (reset_clears_world (worldWithCubeAt ⟨0, 0, 0⟩)).2.2.1
    (by intro b hb
        simp [worldWithCubeAt_bodies] at hb
        subst hb
        simp [worldWithCubeAt_groundBody, initialGroundBody, cubeBlock])
    (by simp [worldWithCubeAt_worldBodies, worldWithCubeAt_groundBody])

/-! ## C8 -/

/-- C8, counterexample: passing the ground body itself to `addBody` pushes
it onto the dynamic-body registry, so `addBody` does not preserve the
invariant for every argument. -/
theorem addBody_can_insert_ground :
    PhysicsWorld.init.groundBody ∈
      ((PhysicsWorld.init.addBody PhysicsWorld.init.groundBody).1).bodies := by
  show PhysicsWorld.init.groundBody ∈
    [{ initialGroundBody with material := initialDefaultMaterial }]
  simp [PhysicsWorld.init, initialGroundBody]

/-- C8, amended: the ground body is absent from the registry after
construction, and the invariant (no registered body carries the ground
body's identity) is preserved by `removeBody`, by `reset`, and by
`addBody` applied to any body whose identity differs from the ground's;
while it holds, `removeBody` on the ground body is a no-op, so the ground
is not removable through the collection.  (`addBody` applied to the
ground body itself does insert it.) -/
theorem ground_invariant_amended :
    (∀ b ∈ PhysicsWorld.init.bodies, ¬ b.id = PhysicsWorld.init.groundBody.id) ∧
    (∀ w : PhysicsWorld,
        (∀ b ∈ w.bodies, ¬ b.id = w.groundBody.id) →
        (∀ c : Body, ¬ c.id = w.groundBody.id →
           ∀ b ∈ ((w.addBody c).1).bodies, ¬ b.id = ((w.addBody c).1).groundBody.id) ∧
        (∀ c : Body,
           ∀ b ∈ (w.removeBody c).bodies, ¬ b.id = (w.removeBody c).groundBody.id) ∧
        (∀ b ∈ (w.reset).bodies, ¬ b.id = (w.reset).groundBody.id) ∧
        w.removeBody w.groundBody = w) := by
  constructor
  · intro b hb
    cases hb
  · intro w hinv
    refine ⟨?_, ?_, ?_, ?_⟩
    · intro c hc b hb
      have hbodies : ((w.addBody c).1).bodies =
          w.bodies ++ [{ c with material := w.defaultMaterial }] := rfl
      have hground : ((w.addBody c).1).groundBody = w.groundBody := rfl
      rw [hbodies] at hb
      rw [hground]
      rcases List.mem_append.mp hb with h | h
      · exact hinv b h
      · have hbc : b = { c with material := w.defaultMaterial } := by simpa using h
        rw [hbc]
        exact hc
    · intro c b hb
      rw [removeBody_bodies] at hb
      rw [removeBody_groundBody]
      exact hinv b (List.mem_of_mem_eraseP hb)
    · intro b hb
      have hnil : (w.reset).bodies = [] := foldl_removeBody_bodies w.bodies w rfl
      rw [hnil] at hb
      cases hb
    · unfold PhysicsWorld.removeBody
      rw [if_neg]
      intro hc
      obtain ⟨x, hx, hxid⟩ := List.any_eq_true.mp hc
      exact hinv x hx (by simpa using hxid)

/-- C8, witness: on the one-cube world the ground body is not removable
through the dynamic-body collection. -/
theorem ground_invariant_amended_witness :
    (worldWithCubeAt ⟨0, 0, 0⟩).removeBody (worldWithCubeAt ⟨0, 0, 0⟩).groundBody =
      worldWithCubeAt ⟨0, 0, 0⟩ :=
  ((ground_invariant_amended.2 (worldWithCubeAt ⟨0, 0, 0⟩))
    (by intro b hb
        simp [worldWithCubeAt_bodies] at hb
        subst hb
        simp [worldWithCubeAt_groundBody, initialGroundBody, cubeBlock])).2.2.2

/-! ## C9 helper lemma -/

/-- When the registry ids are duplicate-free, erasing an id leaves no body
with that id behind. -/
theorem eraseP_id_clears (bid : ℕ) :
    ∀ l : List Body, (l.map Body.id).Nodup →
      ∀ x ∈ l.eraseP (fun y => y.id == bid), ¬ x.id = bid := by
  intro l
  induction l with
  | nil => intro _ x hx; cases hx
  | cons hd tl ih =>
      intro hnodup x hx
      rw [List.map_cons] at hnodup
      obtain ⟨hhd, htl⟩ := List.nodup_cons.mp hnodup
      by_cases hp : hd.id = bid
      · rw [List.eraseP_cons_of_pos (by simp [hp])] at hx
        intro hxb
        exact hhd (List.mem_map.mpr ⟨x, hx, by rw [hxb, hp]⟩)
      · rw [List.eraseP_cons_of_neg (by simp [hp])] at hx
        rcases List.mem_cons.mp hx with h | h
        · subst h
          exact hp
        · exact ih htl x h

/-! ## C9 -/

/-- C9: `removeBody` on a body absent from the registry leaves the whole
state unchanged; on a present body it erases that body's identity from
both the registry and the CANNON world (under duplicate-free ids, no
registered body keeps that identity). -/
theorem removeBody_unknown_noop :
    ∀ (w : PhysicsWorld) (b : Body),
      ((∀ x ∈ w.bodies, ¬ x.id = b.id) → w.removeBody b = w) ∧
      ((∃ x ∈ w.bodies, x.id = b.id) →
         (w.removeBody b).bodies = w.bodies.eraseP (fun x => x.id == b.id) ∧
         (w.removeBody b).worldBodies = w.worldBodies.eraseP (fun x => x.id == b.id) ∧
         ((w.bodies.map Body.id).Nodup →
            ∀ x ∈ (w.removeBody b).bodies, ¬ x.id = b.id)) := by
  intro w b
  constructor
  · intro h
    unfold PhysicsWorld.removeBody
    rw [if_neg]
    intro hc
    obtain ⟨x, hx, hxid⟩ := List.any_eq_true.mp hc
    exact h x hx (by simpa using hxid)
  · intro hex
    obtain ⟨x, hx, hxid⟩ := hex
    have hcond : w.bodies.any (fun y => y.id == b.id) = true :=
      List.any_eq_true.mpr ⟨x, hx, by simp [hxid]⟩
    refine ⟨removeBody_bodies w b, ?_, ?_⟩
    · unfold PhysicsWorld.removeBody
      rw [if_pos hcond]
    · intro hnodup y hy
      rw [removeBody_bodies] at hy
      exact eraseP_id_clears b.id w.bodies hnodup y hy

/-- C9, witness: removing a never-added body from the one-cube world is a
no-op. -/
theorem removeBody_unknown_noop_witness :
    (worldWithCubeAt ⟨0, 0, 0⟩).removeBody (cubeBlock ⟨30, 0, 0⟩ 7) =
      worldWithCubeAt ⟨0, 0, 0⟩ :=
  (removeBody_unknown_noop (worldWithCubeAt ⟨0, 0, 0⟩) (cubeBlock ⟨30, 0, 0⟩ 7)).1
    (by intro x hx
        simp [worldWithCubeAt_bodies] at hx
        subst hx
        simp [cubeBlock])

/-! ## C10 -/

/-- C10: `addBody` overwrites the body's material with the world's shared
default material (friction 0.5, restitution 0.1 on a fresh world) while
leaving identity, position, half-extents, mass, block tag and shape
unchanged, and every newly registered body carries the default material;
`createBlockBody` assigns per-type friction 0.7 / 0.6 / 0.5 for
foundation / office / spire, which is therefore discarded on
registration. -/
theorem addBody_overwrites_material :
    (∀ (w : PhysicsWorld) (b : Body),
        ((w.addBody b).2).material = w.defaultMaterial ∧
        ((w.addBody b).2).id = b.id ∧
        ((w.addBody b).2).position = b.position ∧
        ((w.addBody b).2).halfExtents = b.halfExtents ∧
        ((w.addBody b).2).mass = b.mass ∧
        ((w.addBody b).2).blockType = b.blockType ∧
        ((w.addBody b).2).hasBoxShape = b.hasBoxShape ∧
        ((w.addBody b).1).bodies = w.bodies ++ [(w.addBody b).2] ∧
        (∀ c ∈ ((w.addBody b).1).bodies,
           c ∈ w.bodies ∨ c.material = w.defaultMaterial)) ∧
    PhysicsWorld.init.defaultMaterial = { friction := 0.5, restitution := 0.1 } ∧
    (∀ (position : Vec3) (bodyId : ℕ),
        (createBlockBody "foundation" position bodyId).map (fun b => b.material.friction) =
          some 0.7) ∧
    (∀ (position : Vec3) (bodyId : ℕ),
        (createBlockBody "office" position bodyId).map (fun b => b.material.friction) =
          some 0.6) ∧
    (∀ (position : Vec3) (bodyId : ℕ),
        (createBlockBody "spire" position bodyId).map (fun b => b.material.friction) =
          some 0.5) ∧
    (∀ (w : PhysicsWorld) (blockType : String) (position : Vec3) (bodyId : ℕ) (b : Body),
        createBlockBody blockType position bodyId = some b →
        ((w.addBody b).2).material = w.defaultMaterial) := by
  refine ⟨?_, rfl, fun _ _ => rfl, fun _ _ => rfl, fun _ _ => rfl,
    fun w blockType position bodyId b _ => rfl⟩
  intro w b
  refine ⟨rfl, rfl, rfl, rfl, rfl, rfl, rfl, rfl, ?_⟩
  intro c hc
  have hbodies : ((w.addBody b).1).bodies =
      w.bodies ++ [{ b with material := w.defaultMaterial }] := rfl
  rw [hbodies] at hc
  rcases List.mem_append.mp hc with h | h
  · exact Or.inl h
  · have hcb : c = { b with material := w.defaultMaterial } := by simpa using h
    rw [hcb]
    exact Or.inr rfl

/-- C10, witness: the final clause applied to a concrete office-tower
body. -/
theorem addBody_overwrites_material_witness :
    ((PhysicsWorld.init.addBody officeBody3).2).material =
      PhysicsWorld.init.defaultMaterial :=
  addBody_overwrites_material.2.2.2.2.2 PhysicsWorld.init "office" ⟨0, 0, 0⟩ 3 officeBody3
    (by simp [createBlockBody, BLOCK_TYPES, officeBody3]; norm_num)

/-! ## C3 and C4 helper lemmas -/

/-- Grid snapping always lands on a multiple of the grid size. -/
theorem snapCoord_isMultiple (q : ℚ) : ∃ k : ℤ, snapCoord q = 5 * (k : ℚ) := by
  refine ⟨jsRound (q / gridSize), ?_⟩
  unfold snapCoord gridSize
  ring

/-- Grid snapping moves a coordinate by at most half the grid size, so the
result is the nearest multiple of 5. -/
theorem snapCoord_near (q : ℚ) : |snapCoord q - q| ≤ 5 / 2 := by
  unfold snapCoord jsRound gridSize
  have h1 : (⌊q / 5 + 1 / 2⌋ : ℚ) ≤ q / 5 + 1 / 2 := Int.floor_le _
  have h2 : q / 5 + 1 / 2 - 1 < (⌊q / 5 + 1 / 2⌋ : ℚ) := Int.sub_one_lt_floor _
  rw [abs_le]
  constructor <;> linarith

/-- Snapping a coordinate that lies in the buildable region keeps it in
the buildable region. -/
theorem snapCoord_range (q : ℚ) (h1 : -80 ≤ q) (h2 : q ≤ 80) :
    -80 ≤ snapCoord q ∧ snapCoord q ≤ 80 := by
  unfold snapCoord jsRound gridSize
  have hu : ⌊q / 5 + 1 / 2⌋ ≤ 16 := by
    have hle : ⌊q / 5 + 1 / 2⌋ ≤ ⌊(33 : ℚ) / 2⌋ := Int.floor_mono (by linarith)
    have h16 : ⌊(33 : ℚ) / 2⌋ = 16 := by norm_num
    rw [h16] at hle
    exact hle
  have hl : -16 ≤ ⌊q / 5 + 1 / 2⌋ := by
    have hle : ⌊(-31 : ℚ) / 2⌋ ≤ ⌊q / 5 + 1 / 2⌋ := Int.floor_mono (by linarith)
    have hm16 : ⌊(-31 : ℚ) / 2⌋ = -16 := by norm_num
    rw [hm16] at hle
    exact hle
  have hu' : ((⌊q / 5 + 1 / 2⌋ : ℤ) : ℚ) ≤ 16 := by exact_mod_cast hu
  have hl' : (-16 : ℚ) ≤ ((⌊q / 5 + 1 / 2⌋ : ℤ) : ℚ) := by exact_mod_cast hl
  constructor <;> nlinarith

/-- The clamp of the ground hit stays inside the buildable region. -/
theorem clamp80_range (q : ℚ) : -80 ≤ clamp80 q ∧ clamp80 q ≤ 80 := by
  unfold clamp80
  exact ⟨le_max_left _ _, max_le (by norm_num) (min_le_left _ _)⟩

/-- In a distance-sorted intersection list, the first qualifying hit found
by `find?` is nearest among all qualifying hits. -/
theorem find?_qualifying_min (l : List Intersection)
    (hs : List.Pairwise (fun a b => a.distance ≤ b.distance) l) (a : Intersection)
    (hfind : l.find? qualifiesTopFace = some a) :
    ∀ j ∈ l, qualifiesTopFace j = true → a.distance ≤ j.distance := by
  induction l with
  | nil => cases hfind
  | cons hd tl ih =>
      obtain ⟨hhd, htl⟩ := List.pairwise_cons.mp hs
      by_cases hp : qualifiesTopFace hd
      · rw [List.find?_cons_of_pos _ hp] at hfind
        injection hfind with heq
        subst heq
        intro j hj _
        rcases List.mem_cons.mp hj with h | h
        · subst h
          exact le_refl _
        · exact hhd j h
      · rw [List.find?_cons_of_neg _ hp] at hfind
        intro j hj hq
        rcases List.mem_cons.mp hj with h | h
        · subst h
          exact absurd hq hp
        · exact ih htl hfind j h hq

/-! ## C3 -/

/-- C3: with no qualifying block-surface intersection, a ray that meets
the ground plane yields an on-ground candidate resting at height 0 whose
X and Z are the clamped-then-snapped coordinates (multiples of 5 inside
[-80, 80], each nearest to the clamped value), and a ray that misses the
ground plane yields no candidate. -/
theorem getPlacementPosition_groundFallback :
    ∀ (intersects : List Intersection) (ray : Ray),
      (∀ i ∈ intersects, qualifiesTopFace i = false) →
      ((∀ p : Vec3, intersectGroundPlane ray = some p →
          getPlacementPosition true intersects ray =
            some { position := ⟨snapCoord (clamp80 p.x), 0, snapCoord (clamp80 p.z)⟩
                   surfaceY := 0
                   onBlock := false
                   targetBlock := none } ∧
          (∃ kx : ℤ, snapCoord (clamp80 p.x) = 5 * (kx : ℚ)) ∧
          (∃ kz : ℤ, snapCoord (clamp80 p.z) = 5 * (kz : ℚ)) ∧
          |snapCoord (clamp80 p.x) - clamp80 p.x| ≤ 5 / 2 ∧
          |snapCoord (clamp80 p.z) - clamp80 p.z| ≤ 5 / 2 ∧
          -80 ≤ snapCoord (clamp80 p.x) ∧ snapCoord (clamp80 p.x) ≤ 80 ∧
          -80 ≤ snapCoord (clamp80 p.z) ∧ snapCoord (clamp80 p.z) ≤ 80) ∧
       (intersectGroundPlane ray = none →
          getPlacementPosition true intersects ray = none)) := by
  intro intersects ray hnoq
  have hfind : intersects.find? qualifiesTopFace = none :=
    List.find?_eq_none.mpr (fun x hx => by simp [hnoq x hx])
  constructor
  · intro p hp
    have hxr := clamp80_range p.x
    have hzr := clamp80_range p.z
    have rx := snapCoord_range (clamp80 p.x) hxr.1 hxr.2
    have rz := snapCoord_range (clamp80 p.z) hzr.1 hzr.2
    refine ⟨?_, snapCoord_isMultiple _, snapCoord_isMultiple _, snapCoord_near _,
      snapCoord_near _, rx.1, rx.2, rz.1, rz.2⟩
    simp [getPlacementPosition, hfind, hp, snapPositionToGrid]
  · intro hnone
    simp [getPlacementPosition, hfind, hnone]

/-- C3, witness: a straight-down ray over empty terrain produces the
snapped on-ground candidate. -/
theorem getPlacementPosition_groundFallback_witness :
    getPlacementPosition true [] ⟨⟨3, 10, 3⟩, ⟨0, -1, 0⟩⟩ =
      some { position := ⟨snapCoord (clamp80 3), 0, snapCoord (clamp80 3)⟩
             surfaceY := 0
             onBlock := false
             targetBlock := none } :=
  ((getPlacementPosition_groundFallback [] ⟨⟨3, 10, 3⟩, ⟨0, -1, 0⟩⟩
      (by intro i hi; cases hi)).1 ⟨3, 0, 3⟩
      (by norm_num [intersectGroundPlane])).1

/-! ## C4 -/

/-- C4: on a distance-sorted intersection list holding at least one
upward-facing hit, placement resolution returns the nearest qualifying
hit as an on-block candidate referencing the struck object, with the
exact intersection height as resting height and X/Z snapped to the
nearest multiple of 5. -/
theorem getPlacementPosition_blockSurface :
    ∀ (intersects : List Intersection) (ray : Ray),
      List.Pairwise (fun a b => a.distance ≤ b.distance) intersects →
      (∃ j ∈ intersects, qualifiesTopFace j = true) →
      ∃ i ∈ intersects,
        qualifiesTopFace i = true ∧
        (∀ j ∈ intersects, qualifiesTopFace j = true → i.distance ≤ j.distance) ∧
        getPlacementPosition true intersects ray =
          some { position := ⟨snapCoord i.point.x, i.point.y, snapCoord i.point.z⟩
                 surfaceY := i.point.y
                 onBlock := true
                 targetBlock := some i.objId } ∧
        (∃ kx : ℤ, snapCoord i.point.x = 5 * (kx : ℚ)) ∧
        |snapCoord i.point.x - i.point.x| ≤ 5 / 2 ∧
        (∃ kz : ℤ, snapCoord i.point.z = 5 * (kz : ℚ)) ∧
        |snapCoord i.point.z - i.point.z| ≤ 5 / 2 := by
  intro intersects ray hsorted hex
  obtain ⟨j, hj, hq⟩ := hex
  have hsome : (intersects.find? qualifiesTopFace).isSome :=
    List.find?_isSome.mpr ⟨j, hj, hq⟩
  obtain ⟨i, hfind⟩ := Option.isSome_iff_exists.mp hsome
  refine ⟨i, List.mem_of_find?_eq_some hfind, List.find?_some hfind,
    find?_qualifying_min intersects hsorted i hfind, ?_,
    snapCoord_isMultiple _, snapCoord_near _, snapCoord_isMultiple _, snapCoord_near _⟩
  simp [getPlacementPosition, hfind, snapPositionToGrid]

/-- C4, witness: a single upward-facing hit is returned with exact height
and snapped horizontals. -/
theorem getPlacementPosition_blockSurface_witness :
    getPlacementPosition true [topIntersection] ⟨⟨0, 50, 0⟩, ⟨0, -1, 0⟩⟩ =
      some { position := ⟨snapCoord 3, 15, snapCoord 2⟩
             surfaceY := 15
             onBlock := true
             targetBlock := some 42 } := by
  obtain ⟨i, hi, _, _, heq, _⟩ :=
    getPlacementPosition_blockSurface [topIntersection] ⟨⟨0, 50, 0⟩, ⟨0, -1, 0⟩⟩
      (by simp)
      ⟨topIntersection, by simp, by norm_num [qualifiesTopFace, topIntersection]⟩
  have hi' : i = topIntersection := by simpa using hi
  subst hi'
  exact heq
